import Mathlib

/-!
Shallow embedding of the LLM-orchestration component of the product-support
chatbot backend (backend/llm_service.py): language detection, translation,
prompt building and response generation, with the external services
(language guesser, translation provider, chat-completion endpoint) modelled
as oracles of an explicit environment.
-/

/-- Boolean substring test, embedding Python's `pat in s`. -/
def strContainsB (s pat : String) : Bool :=
  s.data.tails.any (fun t => pat.data.isPrefixOf t)

/-- Propositional substring containment: `sub` occurs verbatim inside `s`. -/
def containsStr (s sub : String) : Prop :=
  ∃ a b, s = a ++ sub ++ b

/-- Embedding of Python's `sep.join(parts)`. -/
def joinStr (sep : String) : List String → String
  | [] => ""
  | [x] => x
  | x :: y :: xs => x ++ sep ++ joinStr sep (y :: xs)

/-- Embedding of Python's `s.lower()` (character-wise lowering). -/
def strToLower (s : String) : String := ⟨s.data.map Char.toLower⟩

/-- Embedding of Python's slice `s[:n]` (first `n` code points). -/
def strTake (s : String) (n : Nat) : String := ⟨s.data.take n⟩

/-- Whitespace trimming on both ends of a character list. -/
def trimChars (l : List Char) : List Char :=
  ((l.dropWhile Char.isWhitespace).reverse.dropWhile Char.isWhitespace).reverse

/-- Embedding of Python's `s.strip()`. -/
def strTrim (s : String) : String := ⟨trimChars s.data⟩

/-- The last piece of Python's `l.split(sep)`: the text after the last
occurrence of `sep`, or the whole input when `sep` does not occur.  For a
separator with no self-overlap (such as "CUSTOMER QUESTION", the only one
used) this equals `split(sep)[-1]`. -/
def splitLast (sep : List Char) (l : List Char) : List Char :=
  match (l.tails.filter (fun t => sep.isPrefixOf t)).getLast? with
  | some t => t.drop sep.length
  | none => l

/-- Errors the `langdetect` guesser can raise: its own `LangDetectException`
(e.g. on empty input) or any other internal exception. -/
inductive DetectErr where
  | langDetectException : DetectErr
  | otherError : String → DetectErr

/-- Environment of an `LLMService` instance: the mock/live mode flag fixed at
construction, plus the three external services as oracles.  `chat prompt`
models the whole chat-completion call including content extraction (an error
covers timeout, auth, quota and malformed-response failures, carrying the
Python `str(e)`); `translate src target text` models
`GoogleTranslator(source=src, target=target).translate(text)`. -/
structure Env where
  useMock : Bool
  chat : String → Except String String
  detect : String → Except DetectErr String
  translate : String → String → String → Except String String

/-- Embedding of `LLMService.detect_language`: returns the guesser's code, and
recovers to the default code on `LangDetectException` or any other
exception. -/
def detect_language (env : Env) (text : String) : String :=
  match env.detect text with
  | Except.ok detected => detected
  | Except.error DetectErr.langDetectException => "en"
  | Except.error (DetectErr.otherError _) => "en"

/-- Embedding of `LLMService.translate_text`.  The second component counts the
calls made to the translation provider. -/
def translate_text (env : Env) (text source_lang target_lang : String) :
    String × Nat :=
  if source_lang = target_lang then (text, 0)
  else
    let src := if source_lang = "auto" then "auto" else source_lang
    match env.translate src target_lang text with
    | Except.ok translated => (translated, 1)
    | Except.error _ => (text, 1)

/-- C6: for every environment, text and language code `L`,
`translate_text text L L` returns the text unchanged and performs zero calls
to the translation provider. -/
theorem translate_text_same_lang (env : Env) (text lang : String) :
    translate_text env text lang lang = (text, 0) := by
  simp [translate_text]

/-- C7: when source and target differ and the translation provider fails with
any exception, `translate_text` returns the original text unchanged (after a
single provider call) and propagates no exception. -/
theorem translate_text_provider_failure (env : Env)
    (text source_lang target_lang e : String)
    (hne : source_lang ≠ target_lang)
    (hfail : env.translate
        (if source_lang = "auto" then "auto" else source_lang)
        target_lang text = Except.error e) :
    translate_text env text source_lang target_lang = (text, 1) := by
  simp only [translate_text, if_neg hne, hfail]

/-- C8: whenever the underlying language guesser fails with any exception
(`LangDetectException`, e.g. on empty input, or any other internal error),
`detect_language` returns the default code "en" and propagates nothing. -/
theorem detect_language_failure_default (env : Env) (text : String)
    (e : DetectErr) (hfail : env.detect text = Except.error e) :
    detect_language env text = "en" := by
  cases e <;> simp [detect_language, hfail]

/-- A concrete environment whose provider oracles all fail. -/
def envAllFail : Env where
  useMock := false
  chat := fun _ => Except.error "quota exceeded"
  detect := fun _ => Except.error DetectErr.langDetectException
  translate := fun _ _ _ => Except.error "network unreachable"

/-- Witness for C7 at a concrete failing provider call. -/
theorem translate_text_provider_failure_witness :
    translate_text envAllFail "hello" "en" "es" = ("hello", 1) :=
  translate_text_provider_failure envAllFail "hello" "en" "es"
    "network unreachable" (by decide) rfl

/-- Witness for C8 at the concrete empty input with a failing guesser. -/
theorem detect_language_failure_default_witness :
    detect_language envAllFail "" = "en" :=
  detect_language_failure_default envAllFail ""
    DetectErr.langDetectException rfl

/-- The fixed language table of `LLMService.__init__` (`self.language_map`),
mapping ISO codes to human-readable display names. -/
def language_map : List (String × String) :=
  [("en", "english"), ("es", "spanish"), ("fr", "french"), ("de", "german"),
   ("it", "italian"), ("pt", "portuguese"), ("zh-cn", "chinese (simplified)"),
   ("zh-tw", "chinese (traditional)"), ("ja", "japanese"), ("ko", "korean"),
   ("hi", "hindi"), ("ar", "arabic"), ("ru", "russian"), ("nl", "dutch"),
   ("pl", "polish"), ("tr", "turkish"), ("vi", "vietnamese"), ("th", "thai"),
   ("id", "indonesian"), ("ms", "malay")]

/-- A FAQ entry of the product record (`faq['question']`, `faq['answer']`). -/
structure FAQEntry where
  question : String
  answer : String

/-- The product-data dictionary as consumed by `create_context_prompt`:
`none` models an absent key (so `dict.get` falls back to its default), and
field values are taken in their stringified form.  An absent `faqs` key and an
empty list behave identically under `get('faqs', [])`, so a plain list
suffices. -/
structure ProductData where
  name : Option String
  category : Option String
  manufacturer : Option String
  model_number : Option String
  price : Option String
  short_description : Option String
  detailed_specs : Option String
  warranty_info : Option String
  faqs : List FAQEntry

/-- Segments of `prompt_template` between the `.format` substitution points. -/
def tpl0 : String := "\nYou are a helpful product support assistant. Answer the customer\x27s question based on the product information provided below.\n\nIMPORTANT: The customer asked their question in "

/-- Template segment between the first two language substitutions. -/
def tpl1 : String := ". You MUST provide your ENTIRE response in "

/-- Template segment up to the product-information block. -/
def tpl2 : String := ". Do not mix languages or translate the question - understand and respond to it directly.\n\nPRODUCT INFORMATION:\n"

/-- Template segment between the product block and the FAQ block. -/
def tpl3 : String := "\n\nFREQUENTLY ASKED QUESTIONS:\n"

/-- Template segment introducing the customer question. -/
def tpl4 : String := "\n\nCUSTOMER QUESTION (in "

/-- Template segment between the language name and the user question. -/
def tpl5 : String := "): "

/-- Template segment after the user question. -/
def tpl6 : String := "\n\nPlease provide a helpful, accurate answer in "

/-- Template segment between the two language substitutions of the
penultimate paragraph. -/
def tpl7 : String := ". If the information isn\x27t available in the product details, politely explain in "

/-- Template segment up to the final language substitution. -/
def tpl8 : String := " that you don\x27t have that specific information and suggest contacting customer support.\n\nRemember: Your ENTIRE response must be in "

/-- Final template segment. -/
def tpl9 : String := ". Keep your response conversational and helpful.\n"

/-- The product-attribute lines of the prompt, with the `dict.get` defaults of
the `.format` call: absent name renders "Unknown", other absent fields render
"N/A". -/
def productBlock (pd : ProductData) : String :=
  "- Product Name: " ++ pd.name.getD "Unknown" ++
  "\n- Category: " ++ pd.category.getD "N/A" ++
  "\n- Manufacturer: " ++ pd.manufacturer.getD "N/A" ++
  "\n- Model: " ++ pd.model_number.getD "N/A" ++
  "\n- Price: " ++ pd.price.getD "N/A" ++
  "\n- Description: " ++ pd.short_description.getD "N/A" ++
  "\n- Specifications: " ++ pd.detailed_specs.getD "N/A" ++
  "\n- Warranty: " ++ pd.warranty_info.getD "N/A"

/-- `faqs_text`: the newline-joined `Q:/A:` renderings of the FAQ list, in
original list order. -/
def faqsText (faqs : List FAQEntry) : String :=
  joinStr "\n" (faqs.map (fun faq =>
    "Q: " ++ faq.question ++ "\nA: " ++ faq.answer ++ "\n"))

/-- `prompt_template.format(...)`: the template with the language name, the
product fields, the FAQ block and the user question substituted in. -/
def formatPrompt (lang_name : String) (pd : ProductData)
    (faqs_block user_question : String) : String :=
  tpl0 ++ lang_name ++ tpl1 ++ lang_name ++ tpl2 ++ productBlock pd ++
  tpl3 ++ faqs_block ++ tpl4 ++ lang_name ++ tpl5 ++ user_question ++
  tpl6 ++ lang_name ++ tpl7 ++ lang_name ++ tpl8 ++ lang_name ++ tpl9

/-- Embedding of `LLMService.create_context_prompt`.  Python's
`if not response_language` is truthy exactly on a present, non-empty string,
and `faqs_text or "No FAQs available"` substitutes the placeholder exactly
when `faqs_text` is empty. -/
def create_context_prompt (env : Env) (product_data : ProductData)
    (user_question : String) (response_language : Option String) :
    String × String :=
  let detected_lang :=
    match response_language with
    | none => detect_language env user_question
    | some s => if s = "" then detect_language env user_question else s
  let lang_name := (language_map.lookup detected_lang).getD detected_lang
  let faqs_text := faqsText product_data.faqs
  let prompt := formatPrompt lang_name product_data
    (if faqs_text = "" then "No FAQs available" else faqs_text) user_question
  (prompt, detected_lang)

/-- Spanish canned battery answer of `_get_mock_response`. -/
def mockEsBattery : String := "Según las especificaciones del producto, la duración de la batería es de hasta 10 horas para uso típico. Para juegos o tareas intensivas, puede esperar de 4 a 6 horas de duración de la batería."

/-- Spanish canned price answer. -/
def mockEsPrice : String := "El precio actual de este producto es $1,299.99. Por favor, consulte nuestro sitio web para conocer las promociones o descuentos actuales que puedan estar disponibles."

/-- Spanish canned default answer. -/
def mockEsDefault : String := "Gracias por su pregunta. Según la información del producto, este UltraBook Pro 15 es una laptop de alto rendimiento para profesionales con especificaciones avanzadas."

/-- French canned battery answer. -/
def mockFrBattery : String := "Selon les spécifications du produit, l\x27autonomie de la batterie est jusqu\x27à 10 heures pour une utilisation normale. Pour les jeux ou les tâches intensives, vous pouvez vous attendre à 4-6 heures d\x27autonomie."

/-- French canned price answer. -/
def mockFrPrice : String := "Le prix actuel de ce produit est de 1 299,99 $. Veuillez consulter notre site web pour connaître les promotions ou remises actuellement disponibles."

/-- French canned default answer. -/
def mockFrDefault : String := "Merci pour votre question. Selon les informations sur le produit, cet UltraBook Pro 15 est un ordinateur portable haute performance pour les professionnels."

/-- German canned battery answer. -/
def mockDeBattery : String := "Laut den Produktspezifikationen beträgt die Akkulaufzeit bis zu 10 Stunden bei typischer Nutzung. Für Gaming oder intensive Aufgaben können Sie 4-6 Stunden Akkulaufzeit erwarten."

/-- German canned price answer. -/
def mockDePrice : String := "Der aktuelle Preis für dieses Produkt beträgt 1.299,99 $. Bitte besuchen Sie unsere Website für aktuelle Werbeaktionen oder Rabatte."

/-- German canned default answer. -/
def mockDeDefault : String := "Vielen Dank für Ihre Frage. Laut den Produktinformationen ist dieses UltraBook Pro 15 ein Hochleistungs-Laptop für Profis."

/-- Chinese canned battery answer. -/
def mockZhBattery : String := "根据产品规格，电池续航时间为典型使用情况下最长10小时。对于游戏或密集任务，您可以期望4-6小时的电池续航时间。"

/-- Chinese canned price answer. -/
def mockZhPrice : String := "此产品的当前价格为$1,299.99。请查看我们的网站了解可能提供的当前促销或折扣。"

/-- Chinese canned default answer. -/
def mockZhDefault : String := "感谢您的提问！根据产品信息，这款UltraBook Pro 15是一款专为专业人士设计的高性能笔记本电脑。"

/-- Hindi canned battery answer. -/
def mockHiBattery : String := "उत्पाद विनिर्देशों के अनुसार, सामान्य उपयोग के लिए बैटरी जीवन 10 घंटे तक है। गेमिंग या गहन कार्यों के लिए, आप 4-6 घंटे की बैटरी जीवन की उम्मीद कर सकते हैं।"

/-- Hindi canned price answer. -/
def mockHiPrice : String := "इस उत्पाद की वर्तमान कीमत $1,299.99 है। कृपया हमारी वेबसाइट पर उपलब्ध वर्तमान प्रचार या छूट के लिए जांच करें।"

/-- Hindi canned default answer. -/
def mockHiDefault : String := "आपके प्रश्न के लिए धन्यवाद। उत्पाद की जानकारी के अनुसार, यह UltraBook Pro 15 पेशेवरों के लिए एक उच्च-प्रदर्शन लैपटॉप है।"

/-- English canned battery answer. -/
def mockEnBattery : String := "Based on the product specifications, the battery life is up to 10 hours for typical usage. For gaming or intensive tasks, you can expect 4-6 hours of battery life."

/-- English canned warranty answer. -/
def mockEnWarranty : String := "This product comes with a 2-year limited warranty covering manufacturing defects. Physical damage and normal wear are not covered. You can contact customer support for warranty claims."

/-- English canned price answer. -/
def mockEnPrice : String := "The current price for this product is $1,299.99. Please check our website for any current promotions or discounts that may be available."

/-- English canned specifications answer. -/
def mockEnSpecs : String := "This product features high-end specifications including Intel i7 processor, 16GB RAM, and 512GB SSD storage. For complete technical specifications, please refer to the product manual."

/-- English canned default answer. -/
def mockEnDefault : String := "Thank you for your question! I\x27d be happy to help you with information about this product. For the most accurate and up-to-date information, please contact our customer support team."

/-- Greeting returned when the prompt carries no CUSTOMER QUESTION marker. -/
def mockGreeting : String := "Hello! I\x27m here to help answer questions about this product. What would you like to know?"

/-- Embedding of `LLMService._get_mock_response`: keyword pattern-matching on
the prompt, with language-specific literal templates for spanish, french,
german, chinese and hindi and English canned sentences otherwise. -/
def get_mock_response (prompt : String) : String :=
  if strContainsB prompt "CUSTOMER QUESTION" then
    if strContainsB (strToLower prompt) "spanish" then
      if strContainsB (strToLower prompt) "batería" || strContainsB (strToLower prompt) "battery" then mockEsBattery
      else if strContainsB (strToLower prompt) "precio" || strContainsB (strToLower prompt) "cost" then mockEsPrice
      else mockEsDefault
    else if strContainsB (strToLower prompt) "french" then
      if strContainsB (strToLower prompt) "batterie" || strContainsB (strToLower prompt) "battery" then mockFrBattery
      else if strContainsB (strToLower prompt) "prix" || strContainsB (strToLower prompt) "cost" then mockFrPrice
      else mockFrDefault
    else if strContainsB (strToLower prompt) "german" then
      if strContainsB (strToLower prompt) "batterie" || strContainsB (strToLower prompt) "akku" then mockDeBattery
      else if strContainsB (strToLower prompt) "preis" || strContainsB (strToLower prompt) "cost" then mockDePrice
      else mockDeDefault
    else if strContainsB (strToLower prompt) "chinese" then
      if strContainsB prompt "电池" || strContainsB (strToLower prompt) "battery" then mockZhBattery
      else if strContainsB prompt "价格" || strContainsB (strToLower prompt) "cost" then mockZhPrice
      else mockZhDefault
    else if strContainsB (strToLower prompt) "hindi" then
      if strContainsB prompt "बैटरी" || strContainsB (strToLower prompt) "battery" then mockHiBattery
      else if strContainsB prompt "कीमत" || strContainsB (strToLower prompt) "price" then mockHiPrice
      else mockHiDefault
    else
      let user_question :=
        strToLower (strTrim ⟨splitLast "CUSTOMER QUESTION".data prompt.data⟩)
      if strContainsB user_question "battery" then mockEnBattery
      else if strContainsB user_question "warranty" then mockEnWarranty
      else if strContainsB user_question "price" || strContainsB user_question "cost" then mockEnPrice
      else if strContainsB user_question "specs" || strContainsB user_question "specification" then mockEnSpecs
      else mockEnDefault
  else mockGreeting

/-- The fixed apologetic head of the live-mode failure message; the code
appends `str(e)` to it (`f"... Error: {str(e)}"`). -/
def errorMessageHead : String := "I apologize, but I\x27m having trouble processing your request right now. Please try again later or contact customer support. Error: "

/-- Embedding of `LLMService.get_response`.  The `Except` result mirrors the
async method's ability to raise: an uncaught exception would surface as
`Except.error`.  In mock mode the canned answer is computed and, for a
non-English target, passed through `translate_text` from "en"; in live mode
the chat oracle's answer is stripped and, for a non-English target, its first
100 characters are re-detected and the whole answer translated when the
detected code differs; any chat failure is caught and replaced by the apology
message (translated for a non-English target). -/
def get_response (env : Env) (prompt : String) (target_language : String) :
    Except String String :=
  if env.useMock then
    let response := get_mock_response prompt
    let response :=
      if target_language ≠ "en" then
        (translate_text env response "en" target_language).1
      else response
    Except.ok response
  else
    match env.chat prompt with
    | Except.ok content =>
        let llm_response := strTrim content
        let llm_response :=
          if target_language ≠ "en" then
            let detected_response_lang :=
              detect_language env (strTake llm_response 100)
            if detected_response_lang ≠ target_language then
              (translate_text env llm_response detected_response_lang
                target_language).1
            else llm_response
          else llm_response
        Except.ok llm_response
    | Except.error e =>
        let error_msg := errorMessageHead ++ e
        let error_msg :=
          if target_language ≠ "en" then
            (translate_text env error_msg "en" target_language).1
          else error_msg
        Except.ok error_msg

/-- A second concrete failing environment, with a different chat failure. -/
def envFailTimeout : Env where
  useMock := false
  chat := fun _ => Except.error "Request timed out"
  detect := fun _ => Except.ok "en"
  translate := fun _ _ text => Except.ok text

/-- A concrete mock-mode environment whose translation provider tags its
output, making translator passes observable. -/
def envMockTag : Env where
  useMock := true
  chat := fun _ => Except.error "no client"
  detect := fun _ => Except.ok "es"
  translate := fun _ _ text => Except.ok ("XX" ++ text)

/-- A concrete live environment whose chat call succeeds with a French
answer surrounded by whitespace. -/
def envLiveChat : Env where
  useMock := false
  chat := fun _ => Except.ok "  Bonjour!  "
  detect := fun t => Except.ok (if strContainsB t "Bonjour" then "fr" else "en")
  translate := fun _ _ text => Except.ok ("XX" ++ text)

/-- A prompt naming spanish, as the prompt builder produces for code "es". -/
def promptEsLit : String := "CUSTOMER QUESTION (in spanish): hola"

/-- C1: `get_response` always terminates with an `ok` string — no exception
reaches the caller in either mode — and in live mode any chat-completion
failure is replaced by the apology message, itself passed through
`translate_text` when the target language is not "en". -/
theorem get_response_never_raises (env : Env) (prompt target : String) :
    (∃ s, get_response env prompt target = Except.ok s)
    ∧ (∀ e, env.useMock = false → env.chat prompt = Except.error e →
        get_response env prompt target =
          Except.ok (if target ≠ "en"
            then (translate_text env (errorMessageHead ++ e) "en" target).1
            else errorMessageHead ++ e)) := by
  constructor
  · unfold get_response
    split
    · exact ⟨_, rfl⟩
    · split
      · exact ⟨_, rfl⟩
      · exact ⟨_, rfl⟩
  · intro e hm hc
    simp [get_response, hm, hc]

/-- Witness for C1 at a concrete failing chat call with non-English target. -/
theorem get_response_never_raises_witness :
    get_response envAllFail "p" "fr" =
      Except.ok (if ("fr" : String) ≠ "en"
        then (translate_text envAllFail (errorMessageHead ++ "quota exceeded")
          "en" "fr").1
        else errorMessageHead ++ "quota exceeded") :=
  (get_response_never_raises envAllFail "p" "fr").2 "quota exceeded" rfl rfl

/-- C2 counterexample: two different chat failures yield two different
fallback strings, and the fallback contains the raw error text — the
fallback is the fixed apologetic head with `str(e)` appended, not one fixed
string. -/
theorem get_response_fallback_not_fixed_cex :
    get_response envAllFail "p" "en" =
      Except.ok (errorMessageHead ++ "quota exceeded")
    ∧ get_response envFailTimeout "p" "en" =
      Except.ok (errorMessageHead ++ "Request timed out")
    ∧ errorMessageHead ++ "quota exceeded" ≠
      errorMessageHead ++ "Request timed out"
    ∧ containsStr (errorMessageHead ++ "quota exceeded") "quota exceeded" :=
  ⟨rfl, rfl, by decide, ⟨errorMessageHead, "", by simp⟩⟩

/-- C2 (amended): on a chat-completion failure, the English fallback equals
the fixed apologetic head (temporarily unavailable, contact support)
followed by the stringified exception text — so it varies with the failure
cause and contains the raw error text — and is passed through
`translate_text` when the target language is not "en". -/
theorem get_response_failure_message (env : Env) (prompt e : String)
    (hm : env.useMock = false) (hc : env.chat prompt = Except.error e) :
    get_response env prompt "en" = Except.ok (errorMessageHead ++ e)
    ∧ containsStr (errorMessageHead ++ e) e
    ∧ ∀ target, target ≠ "en" →
        get_response env prompt target =
          Except.ok ((translate_text env (errorMessageHead ++ e)
            "en" target).1) := by
  refine ⟨by simp [get_response, hm, hc], ⟨errorMessageHead, "", by simp⟩, ?_⟩
  intro t ht
  simp [get_response, hm, hc, ht]

/-- Witness for C2's amended theorem at a concrete failing chat call. -/
theorem get_response_failure_message_witness :
    get_response envFailTimeout "p" "en" =
      Except.ok (errorMessageHead ++ "Request timed out") :=
  (get_response_failure_message envFailTimeout "p" "Request timed out"
    rfl rfl).1

/-- C3 counterexample: in mock mode with target "es" and a prompt naming
spanish, the Spanish literal template is NOT returned as-is — it is itself
passed through the translation provider ("en" → "es"), whose output differs
both from the literal template and from the translated English canned
sentence. -/
theorem mock_template_translated_cex :
    get_response envMockTag promptEsLit "es" =
      Except.ok ("XX" ++ mockEsDefault)
    ∧ ("XX" ++ mockEsDefault : String) ≠ mockEsDefault
    ∧ ("XX" ++ mockEsDefault : String) ≠
      (translate_text envMockTag mockEnDefault "en" "es").1 :=
  ⟨rfl, by decide, by decide⟩

/-- C3 (amended): in mock mode, for every prompt with non-English target
language, `get_response` computes the canned sentence via
`get_mock_response` — the language-specific literal template when the prompt
names spanish/french/german/chinese/hindi, else the English canned sentence
selected by keyword matching — and then passes that sentence (whatever its
language) through `translate_text` from "en" into the target language,
returning the translator's result. -/
theorem get_response_mock_nonen (env : Env) (prompt target : String)
    (hm : env.useMock = true) (ht : target ≠ "en") :
    get_response env prompt target =
      Except.ok ((translate_text env (get_mock_response prompt)
        "en" target).1) := by
  simp [get_response, hm, ht]

/-- Witness for C3's amended theorem at a concrete spanish mock prompt. -/
theorem get_response_mock_nonen_witness :
    get_response envMockTag promptEsLit "es" =
      Except.ok ((translate_text envMockTag (get_mock_response promptEsLit)
        "en" "es").1) :=
  get_response_mock_nonen envMockTag promptEsLit "es" rfl (by decide)

/-- C5: in live mode on a successful chat call, with target "en" the
stripped answer is returned verbatim (no re-detection, no translation); with
a non-English target the language of the first 100 characters of the
stripped answer is re-detected and, exactly when the detected code differs
from the target, the entire answer is passed through `translate_text` into
the target language. -/
theorem get_response_live_success (env : Env) (prompt target raw : String)
    (hm : env.useMock = false) (hc : env.chat prompt = Except.ok raw) :
    (target = "en" → get_response env prompt target = Except.ok (strTrim raw))
    ∧ (target ≠ "en" → get_response env prompt target =
        Except.ok (if detect_language env (strTake (strTrim raw) 100) ≠ target
          then (translate_text env (strTrim raw)
            (detect_language env (strTake (strTrim raw) 100)) target).1
          else strTrim raw)) := by
  constructor
  · intro ht
    simp [get_response, hm, hc, ht]
  · intro ht
    simp [get_response, hm, hc, ht]

/-- Witness for C5 at a concrete successful chat call with target "fr". -/
theorem get_response_live_success_witness :
    get_response envLiveChat "p" "fr" =
      Except.ok (if detect_language envLiveChat
            (strTake (strTrim "  Bonjour!  ") 100) ≠ "fr"
        then (translate_text envLiveChat (strTrim "  Bonjour!  ")
          (detect_language envLiveChat (strTake (strTrim "  Bonjour!  ") 100))
          "fr").1
        else strTrim "  Bonjour!  ") :=
  (get_response_live_success envLiveChat "p" "fr" "  Bonjour!  "
    rfl rfl).2 (by decide)

/-- The first element of a joined list bounds the joined string's length. -/
theorem joinStr_length_cons (sep x : String) (xs : List String) :
    x.length ≤ (joinStr sep (x :: xs)).length := by
  cases xs with
  | nil => simp [joinStr]
  | cons y ys =>
      simp only [joinStr, String.length_append]
      omega

/-- The FAQ block of a nonempty FAQ list is never the empty string. -/
theorem faqsText_cons_ne_empty (f : FAQEntry) (fs : List FAQEntry) :
    faqsText (f :: fs) ≠ "" := by
  intro hcon
  have h := joinStr_length_cons "\n"
    ("Q: " ++ f.question ++ "\nA: " ++ f.answer ++ "\n")
    (fs.map (fun faq => "Q: " ++ faq.question ++ "\nA: " ++ faq.answer ++ "\n"))
  rw [show faqsText (f :: fs) = joinStr "\n"
      (("Q: " ++ f.question ++ "\nA: " ++ f.answer ++ "\n") ::
        fs.map (fun faq =>
          "Q: " ++ faq.question ++ "\nA: " ++ faq.answer ++ "\n")) from rfl]
    at hcon
  rw [hcon] at h
  have hq : ("Q: " ++ f.question ++ "\nA: " ++ f.answer ++ "\n").length =
      f.question.length + f.answer.length + 8 := by
    have h1 : ("Q: " : String).length = 3 := rfl
    have h2 : ("\nA: " : String).length = 4 := rfl
    have h3 : ("\n" : String).length = 1 := rfl
    simp only [String.length_append, h1, h2, h3]
    omega
  have hz : ("" : String).length = 0 := rfl
  rw [hq, hz] at h
  omega

/-- The filled template contains the product-attribute block verbatim. -/
theorem formatPrompt_contains_block (L : String) (pd : ProductData)
    (FB q : String) :
    containsStr (formatPrompt L pd FB q) (productBlock pd) :=
  ⟨tpl0 ++ L ++ tpl1 ++ L ++ tpl2,
   tpl3 ++ FB ++ tpl4 ++ L ++ tpl5 ++ q ++ tpl6 ++ L ++ tpl7 ++ L ++ tpl8 ++
     L ++ tpl9,
   by simp [formatPrompt, String.append_assoc]⟩

/-- The filled template contains the FAQ block verbatim. -/
theorem formatPrompt_contains_faq_block (L : String) (pd : ProductData)
    (FB q : String) :
    containsStr (formatPrompt L pd FB q) FB :=
  ⟨tpl0 ++ L ++ tpl1 ++ L ++ tpl2 ++ productBlock pd ++ tpl3,
   tpl4 ++ L ++ tpl5 ++ q ++ tpl6 ++ L ++ tpl7 ++ L ++ tpl8 ++ L ++ tpl9,
   by simp [formatPrompt, String.append_assoc]⟩

/-- The filled template contains the customer-question line, with the
language display name, verbatim. -/
theorem formatPrompt_contains_question_line (L : String) (pd : ProductData)
    (FB q : String) :
    containsStr (formatPrompt L pd FB q) (tpl4 ++ L ++ tpl5 ++ q) :=
  ⟨tpl0 ++ L ++ tpl1 ++ L ++ tpl2 ++ productBlock pd ++ tpl3 ++ FB,
   tpl6 ++ L ++ tpl7 ++ L ++ tpl8 ++ L ++ tpl9,
   by simp [formatPrompt, String.append_assoc]⟩

/-- C4: the prompt built by `create_context_prompt` contains the product
block verbatim — every present field value, with absent optional fields
rendered "N/A" and an absent name rendered "Unknown" —, contains the literal
placeholder "No FAQs available" when the FAQ list is empty, and otherwise
contains the `Q:/A:` FAQ block `faqsText` (the newline-joined renderings in
original list order) verbatim. -/
theorem create_context_prompt_fields (env : Env) (pd : ProductData)
    (q : String) (rl : Option String) :
    containsStr (create_context_prompt env pd q rl).1 (productBlock pd)
    ∧ (pd.faqs = [] →
        containsStr (create_context_prompt env pd q rl).1 "No FAQs available")
    ∧ (pd.faqs ≠ [] →
        containsStr (create_context_prompt env pd q rl).1
          (faqsText pd.faqs)) := by
  refine ⟨formatPrompt_contains_block _ pd _ q, ?_, ?_⟩
  · intro h
    have hempty : faqsText pd.faqs = "" := by rw [h]; rfl
    show containsStr (formatPrompt _ pd
      (if faqsText pd.faqs = "" then "No FAQs available" else faqsText pd.faqs)
      q) "No FAQs available"
    rw [if_pos hempty]
    exact formatPrompt_contains_faq_block _ pd _ q
  · intro h
    obtain ⟨f, fs, hcons⟩ := List.exists_cons_of_ne_nil h
    have hne : faqsText pd.faqs ≠ "" := by
      rw [hcons]; exact faqsText_cons_ne_empty f fs
    show containsStr (formatPrompt _ pd
      (if faqsText pd.faqs = "" then "No FAQs available" else faqsText pd.faqs)
      q) (faqsText pd.faqs)
    rw [if_neg hne]
    exact formatPrompt_contains_faq_block _ pd _ q

/-- A concrete product record with some fields absent and no FAQs. -/
def pdSample : ProductData where
  name := some "UltraBook Pro 15"
  category := none
  manufacturer := some "TechCorp"
  model_number := none
  price := some "1299.99"
  short_description := none
  detailed_specs := some "Intel i7, 16GB RAM"
  warranty_info := none
  faqs := []

/-- Witness for C4 at a concrete product record with an empty FAQ list. -/
theorem create_context_prompt_fields_witness :
    containsStr
      (create_context_prompt envMockTag pdSample "What is the battery life?"
        none).1 "No FAQs available" :=
  (create_context_prompt_fields envMockTag pdSample
    "What is the battery life?" none).2.1 rfl

/-- C9: `create_context_prompt` resolves the language code as the explicit
caller-supplied language when a non-empty one is supplied and otherwise as
the detector's result on the user question, returns the resolved code as the
second component, and embeds in the prompt the fixed language table's
display name for that code — the code itself when it is not in the table. -/
theorem create_context_prompt_language (env : Env) (pd : ProductData)
    (q : String) :
    (∀ s, s ≠ "" → (create_context_prompt env pd q (some s)).2 = s)
    ∧ (create_context_prompt env pd q none).2 = detect_language env q
    ∧ ∀ rl, containsStr (create_context_prompt env pd q rl).1
        (tpl4 ++
          ((language_map.lookup ((create_context_prompt env pd q rl).2)).getD
            ((create_context_prompt env pd q rl).2)) ++ tpl5 ++ q) := by
  refine ⟨?_, rfl, ?_⟩
  · intro s hs
    show (if s = "" then detect_language env q else s) = s
    rw [if_neg hs]
  · intro rl
    exact formatPrompt_contains_question_line _ pd _ q

/-- Witness for C9 at a concrete explicit non-empty language code. -/
theorem create_context_prompt_language_witness :
    (create_context_prompt envMockTag pdSample "hola" (some "fr")).2 = "fr" :=
  (create_context_prompt_language envMockTag pdSample "hola").1 "fr"
    (by decide)

/-- C10: an explicit response language that is the empty string (or absent,
Python `None`) is treated as not supplied — the language is resolved by the
detector on the user question — and therefore the resolved code is non-empty
whenever the detector's result is. -/
theorem create_context_prompt_falsy_language (env : Env) (pd : ProductData)
    (q : String) :
    (create_context_prompt env pd q (some "")).2 = detect_language env q
    ∧ (create_context_prompt env pd q none).2 = detect_language env q
    ∧ (detect_language env q ≠ "" →
        (create_context_prompt env pd q (some "")).2 ≠ ""
        ∧ (create_context_prompt env pd q none).2 ≠ "") := by
  refine ⟨rfl, rfl, ?_⟩
  intro h
  exact ⟨h, h⟩

/-- Witness for C10 with a detector that classifies the question as "es". -/
theorem create_context_prompt_falsy_language_witness :
    (create_context_prompt envMockTag pdSample "hola" (some "")).2 ≠ ""
    ∧ (create_context_prompt envMockTag pdSample "hola" none).2 ≠ "" :=
  (create_context_prompt_falsy_language envMockTag pdSample "hola").2.2
    (by decide)
